import Mathlib

/-!
Verification of `src/client/lazy-app/util/index.ts` (squoosh utility module).

The algorithmic pieces of the module are embedded shallowly:

* the magic-number MIME sniffer (`magicNumberMapInput`, `sniffMimeType`),
  with the JavaScript regular expressions transcribed into a small
  derivative-based matcher (`Rx`, `rxTest`) whose `rxTest r l` is the value
  of `new RegExp(/^r/).test(s)` for the string `s` whose code points are `l`;
* the abortable-promise wrapper (`assertSignal`, `abortable`) over an
  explicit model of settled/pending promises and abort signals;
* the memoised capability probe (`canDecodeImageType`) as a state
  transformer over an explicit cache state;
* `canvasEncode` over an explicit model of the canvas environment,
  including the base64 data-URL fallback path (`execDataUrl`, `atob`).

Bytes are modelled as `Nat` code points: the source turns each byte `v`
(0 ≤ v ≤ 255) into the one-character string `String.fromCodePoint(v)`, so a
byte buffer corresponds exactly to a list of code points.
-/

namespace Squoosh

/-! ### A matcher for the regular expressions of the magic-number table

The patterns of the table use only: literal characters, `.` (any character other
than a line terminator), character classes, and `*` on a single character.
`Rx` is the corresponding abstract syntax; `rxTest r l` decides whether the
anchored pattern `^r` matches the string with code points `l`, i.e. whether
some prefix of `l` is matched by `r`, via Brzozowski derivatives. -/

/-- Abstract syntax of the regular expressions used by the module. -/
inductive Rx where
  | fail : Rx
  | eps : Rx
  | cls : (Nat → Bool) → Rx
  | alt : Rx → Rx → Rx
  | seq : Rx → Rx → Rx
  | star : Rx → Rx

/-- Whether a regular expression matches the empty string. -/
def Rx.nullable : Rx → Bool
  | .fail => false
  | .eps => true
  | .cls _ => false
  | .alt a b => a.nullable || b.nullable
  | .seq a b => a.nullable && b.nullable
  | .star _ => true

/-- Brzozowski derivative of a regular expression by a code point. -/
def Rx.deriv : Rx → Nat → Rx
  | .fail, _ => .fail
  | .eps, _ => .fail
  | .cls p, c => if p c then .eps else .fail
  | .alt a b, c => .alt (a.deriv c) (b.deriv c)
  | .seq a b, c =>
    if a.nullable then .alt (.seq (a.deriv c) b) (b.deriv c)
    else .seq (a.deriv c) b
  | .star r, c => .seq (r.deriv c) (.star r)

/-- Anchored regex test: `rxTest r l` is `true` iff the pattern `^r` matches the string
with code points `l`, i.e. iff `r` matches some prefix of `l`.  This is the
value of `regexp.test(s)` for the `^`-anchored regular
expressions. -/
def rxTest (r : Rx) : List Nat → Bool
  | [] => r.nullable
  | c :: cs => r.nullable || rxTest (r.deriv c) cs

/-- A literal character: regex atom `c` matching exactly the code point `b`. -/
def chr (b : Nat) : Rx := .cls (fun c => b == c)

/-- The regex atom `.` (no `s` flag): any code point other than a line
terminator (U+000A, U+000D, U+2028, U+2029). -/
def anyChar : Rx :=
  .cls (fun c => !(c == 0x0A || c == 0x0D || c == 0x2028 || c == 0x2029))

/-- A character class `[…]` listing the admissible code points. -/
def oneOf (bs : List Nat) : Rx := .cls (fun c => bs.contains c)

/-- Concatenation of a list of regex atoms. -/
def rxCat (rs : List Rx) : Rx := rs.foldr .seq .eps

/-- A literal string of code points, as a regex. -/
def rxStr (bs : List Nat) : Rx := rxCat (bs.map chr)

/-! ### The magic-number table

Transcription of `magicNumberMapInput` (`index.ts` lines 143–158).  Each JS
regular expression is written with the combinators above; the `*` in the
TIFF entries is the regex quantifier, exactly as in the source. -/

/-- The regex matching the literal `%PDF-` at the start. -/
def rePDF : Rx := rxStr [0x25, 0x50, 0x44, 0x46, 0x2D]

/-- The regex `/^GIF87a/`. -/
def reGIF87 : Rx := rxStr [0x47, 0x49, 0x46, 0x38, 0x37, 0x61]

/-- The regex `/^GIF89a/`. -/
def reGIF89 : Rx := rxStr [0x47, 0x49, 0x46, 0x38, 0x39, 0x61]

/-- The regex `/^\x89PNG\x0D\x0A\x1A\x0A/`. -/
def rePNG : Rx := rxStr [0x89, 0x50, 0x4E, 0x47, 0x0D, 0x0A, 0x1A, 0x0A]

/-- The regex `/^\xFF\xD8\xFF/`. -/
def reJPEG : Rx := rxStr [0xFF, 0xD8, 0xFF]

/-- The regex `/^BM/`. -/
def reBMP : Rx := rxStr [0x42, 0x4D]

/-- The regex `/^I I/`. -/
def reTIFF1 : Rx := rxStr [0x49, 0x20, 0x49]

/-- The regex `/^II*/`: the letter `I` followed by zero or more `I`s. -/
def reTIFF2 : Rx := .seq (chr 0x49) (.star (chr 0x49))

/-- The regex `/^MM\x00*/`: `MM` followed by zero or more NUL bytes. -/
def reTIFF3 : Rx := .seq (chr 0x4D) (.seq (chr 0x4D) (.star (chr 0x00)))

/-- The regex `/^RIFF....WEBPVP8[LX ]/`. -/
def reWEBP : Rx :=
  rxCat ([chr 0x52, chr 0x49, chr 0x46, chr 0x46,
          anyChar, anyChar, anyChar, anyChar,
          chr 0x57, chr 0x45, chr 0x42, chr 0x50, chr 0x56, chr 0x50,
          chr 0x38, oneOf [0x4C, 0x58, 0x20]])

/-- The regex `/^\xF4\xFF\x6F/`. -/
def reWEBP2 : Rx := rxStr [0xF4, 0xFF, 0x6F]

/-- The regex `/^\x00\x00\x00 ftypavif\x00\x00\x00\x00/`. -/
def reAVIF : Rx :=
  rxStr [0x00, 0x00, 0x00, 0x20, 0x66, 0x74, 0x79, 0x70,
         0x61, 0x76, 0x69, 0x66, 0x00, 0x00, 0x00, 0x00]

/-- The regex `/^\xff\x0a/`. -/
def reJXL1 : Rx := rxStr [0xFF, 0x0A]

/-- The regex `/^\x00\x00\x00\x0cJXL \x0d\x0a\x87\x0a/`. -/
def reJXL2 : Rx :=
  rxStr [0x00, 0x00, 0x00, 0x0C, 0x4A, 0x58, 0x4C, 0x20,
         0x0D, 0x0A, 0x87, 0x0A]

/-- The ordered magic-number table (`index.ts` lines 143–158).  The source
feeds these pairs into a `Map`, which preserves insertion order and keeps
all fourteen entries since the regex objects are distinct keys. -/
def magicNumberMapInput : List (Rx × String) :=
  [(rePDF, "application/pdf"),
   (reGIF87, "image/gif"),
   (reGIF89, "image/gif"),
   (rePNG, "image/png"),
   (reJPEG, "image/jpeg"),
   (reBMP, "image/bmp"),
   (reTIFF1, "image/tiff"),
   (reTIFF2, "image/tiff"),
   (reTIFF3, "image/tiff"),
   (reWEBP, "image/webp"),
   (reWEBP2, "image/webp2"),
   (reAVIF, "image/avif"),
   (reJXL1, "image/jxl"),
   (reJXL2, "image/jxl")]

/-- A `Blob`: a byte sequence (as code points, each below 256) together
with a MIME type string. -/
structure Blob where
  bytes : List Nat
  type : String

/-- The `for (const [detector, mimeType] of magicNumberToMimeType)` loop of
`sniffMimeType`: returns the MIME type of the first entry whose detector
tests true on the chunk, or the empty string when the loop falls through. -/
def findMimeType : List (Rx × String) → List Nat → String
  | [], _ => ""
  | (detector, mimeType) :: rest, s =>
    if rxTest detector s then mimeType else findMimeType rest s

/-- The function `sniffMimeType` (`index.ts` lines 166–177): reads the first 16 bytes of
the blob (`blob.slice(0, 16)`), turns them into a string of code points,
and scans the magic-number table in order.  The `await`s of the source are
pure value plumbing and disappear in the embedding. -/
def sniffMimeType (blob : Blob) : String :=
  let firstChunk := blob.bytes.take 16
  findMimeType magicNumberMapInput firstChunk

/-! ### Promises, signals and the abortable wrapper

The event loop is modelled by explicit settlement instants: a promise either
never settles or settles at some instant with a resolution value or a
rejection error.  An abort signal records whether it is already in the
aborted state when the wrapper is invoked, and at which later instant (if
any) its `abort` event fires. -/

/-- A JavaScript exception value, as far as this module distinguishes them:
a `DOMException` (with message and name) or a plain `Error` (message only). -/
inductive JsError where
  | domException (message : String) (name : String)
  | jsError (message : String)
deriving DecidableEq

/-- A `DOMException` whose `name` is `AbortError` is the distinguished
cancellation error; callers recognise it by that name. -/
def JsError.isAbortError : JsError → Bool
  | .domException _ name => name == "AbortError"
  | .jsError _ => false

/-- The cancellation error thrown by the module:
`new DOMException("AbortError", "AbortError")`. -/
def abortError : JsError := .domException "AbortError" "AbortError"

/-- The outcome a promise settles with. -/
inductive Settled (α : Type) where
  | resolved (value : α)
  | rejected (error : JsError)
deriving DecidableEq

/-- A promise, modelled by when (if ever) it settles and with what outcome. -/
structure JsPromise (α : Type) where
  settle : Option (Nat × Settled α)
deriving DecidableEq

/-- An `AbortSignal`: `aborted` is its state at the instant the wrapper is
invoked; `firesAt` is the instant at which its `abort` event fires later,
if it ever does. -/
structure AbortSignal where
  aborted : Bool
  firesAt : Option Nat
deriving DecidableEq

/-- The function `assertSignal` (`index.ts` lines 415–417): throw an abort error if the
signal is aborted. -/
def assertSignal (signal : AbortSignal) : Except JsError Unit :=
  if signal.aborted then .error (.domException "AbortError" "AbortError")
  else .ok ()

/-- The rejecter promise built inside `abortable`:
`new Promise((_, reject) => signal.addEventListener("abort", () => reject(new DOMException("AbortError", "AbortError"))))`.
It rejects with the cancellation error exactly when the signal fires. -/
def abortRejecter {α : Type} (signal : AbortSignal) : JsPromise α :=
  ⟨signal.firesAt.map fun t => (t, .rejected (.domException "AbortError" "AbortError"))⟩

/-- Model of `Promise.race` of two promises: the earlier settlement wins.  When both
settle at the same instant the first argument wins (the race adopts the
first settled result in array order); the claims proved below do not depend
on this tie-break. -/
def race {α : Type} (p q : JsPromise α) : JsPromise α :=
  match p.settle, q.settle with
  | none, s => ⟨s⟩
  | some s, none => ⟨some s⟩
  | some (tp, op), some (tq, oq) =>
    if tq < tp then ⟨some (tq, oq)⟩ else ⟨some (tp, op)⟩

/-- The function `abortable` (`index.ts` lines 423–436): assert the signal, then race the
wrapped promise against the abort rejecter.  When `assertSignal` throws, the
async function rejects immediately (instant 0) with that error, without
touching the wrapped promise. -/
def abortable {α : Type} (signal : AbortSignal) (promise : JsPromise α) :
    JsPromise α :=
  match assertSignal signal with
  | .error e => ⟨some (0, .rejected e)⟩
  | .ok _ => race promise (abortRejecter signal)

/-! ### The memoised capability probe

`canDecodeImageType` consults a module-level `Map` before probing.  Probes
are given fresh promise identifiers so that "returns the same stored
(possibly still-pending) promise" is expressible; `probeLog` records, in
order, the labels for which an environment probe was actually started. -/

/-- The mutable state around `canDecodeImageType`: the `canDecodeCache` map
(insertion-ordered association list from MIME label to the stored probe
promise), a fresh-promise counter, and the log of probes performed. -/
structure DecodeProbeState where
  canDecodeCache : List (String × Nat)
  nextPromiseId : Nat
  probeLog : List String
deriving DecidableEq

/-- The state at module load: `const canDecodeCache = new Map()`. -/
def initialProbeState : DecodeProbeState := ⟨[], 0, []⟩

/-- The function `canDecodeImageType` (`index.ts` lines 112–133): if the cache has no
entry for `type`, start a probe (allocating a fresh promise and logging the
probe) and `set` it; then return `canDecodeCache.get(type)!`.  `Map.set`
with a key not yet present appends the entry in insertion order. -/
def canDecodeImageType (st : DecodeProbeState) (type : String) :
    Nat × DecodeProbeState :=
  let st' :=
    if (st.canDecodeCache.lookup type).isSome then st
    else
      { canDecodeCache := st.canDecodeCache ++ [(type, st.nextPromiseId)],
        nextPromiseId := st.nextPromiseId + 1,
        probeLog := st.probeLog ++ [type] }
  ((st'.canDecodeCache.lookup type).getD 0, st')

/-- A sequence of `canDecodeImageType` calls, threading the state. -/
def runCanDecode (st : DecodeProbeState) : List String → DecodeProbeState
  | [] => st
  | t :: ts => runCanDecode (canDecodeImageType st t).2 ts

/-! ### `canvasEncode` and its data-URL fallback

The canvas environment is explicit: whether a 2D context is available,
whether the canvas object has `toBlob`, and what the `toBlob` and
`toDataURL` of the environment produce for the drawn pixel data. -/

/-- An `ImageData`: pixel dimensions plus raw RGBA bytes. -/
structure ImageData where
  width : Nat
  height : Nat
  data : List Nat
deriving DecidableEq

/-- The optional 0–1 `quality` argument.  It is only ever forwarded to the
encoder of the environment, never computed with. -/
abbrev Quality := Option Float

/-- The hosting environment as seen by `canvasEncode`. -/
structure CanvasEnv where
  contextAvailable : Bool
  hasToBlob : Bool
  toBlob : ImageData → String → Quality → Option Blob
  toDataURL : ImageData → String → Quality → String

/-- JavaScript line terminators, excluded by `.` (no `s` flag) and blocking
`$` from matching anywhere but at a match-free end. -/
def isLineTerminator (c : Char) : Bool :=
  c == '\n' || c == '\r' || c.toNat == 0x2028 || c.toNat == 0x2029

/-- Match a literal character sequence, returning the remainder. -/
def dropLit : List Char → List Char → Option (List Char)
  | [], cs => some cs
  | _ :: _, [] => none
  | p :: ps, c :: cs => if c == p then dropLit ps cs else none

/-- One attempt of the regex `data:([^;]+);base64,(.*)$` at the current
position.  `[^;]+` greedily takes the (nonempty) run up to the first `;` —
backtracking cannot help since the next pattern character is `;` — and
`(.*)$` succeeds exactly when the remainder reaches the end of the string
without a line terminator, capturing it whole. -/
def matchDataUrlAt (cs : List Char) : Option (List Char × List Char) :=
  match dropLit "data:".toList cs with
  | none => none
  | some rest1 =>
    let cap1 := rest1.takeWhile fun c => !(c == ';')
    let rest2 := rest1.dropWhile fun c => !(c == ';')
    if cap1.isEmpty then none
    else
      match dropLit ";base64,".toList rest2 with
      | none => none
      | some rest3 =>
        if rest3.any isLineTerminator then none else some (cap1, rest3)

/-- Model of `exec` of the unanchored data-URL regex: try each start position from
left to right, returning the captures (MIME type, base64 payload) of the
leftmost match. -/
def execDataUrl : List Char → Option (List Char × List Char)
  | [] => none
  | c :: cs =>
    match matchDataUrlAt (c :: cs) with
    | some r => some r
    | none => execDataUrl cs

/-- ASCII whitespace, stripped by forgiving-base64 decoding. -/
def isAsciiWhitespace (c : Char) : Bool :=
  c == '\t' || c == '\n' || c.toNat == 0x0C || c == '\r' || c == ' '

/-- Value of a base64 alphabet character, `none` outside the alphabet. -/
def b64Val (c : Char) : Option Nat :=
  if 0x41 ≤ c.toNat ∧ c.toNat ≤ 0x5A then some (c.toNat - 0x41)
  else if 0x61 ≤ c.toNat ∧ c.toNat ≤ 0x7A then some (c.toNat - 0x61 + 26)
  else if 0x30 ≤ c.toNat ∧ c.toNat ≤ 0x39 then some (c.toNat - 0x30 + 52)
  else if c == '+' then some 62
  else if c == '/' then some 63
  else none

/-- Reassemble output bytes from 6-bit groups: four groups give three
bytes; a trailing group of two or three gives one or two bytes. -/
def b64Bytes : List Nat → List Nat
  | a :: b :: c :: d :: rest =>
    (a * 4 + b / 16) :: ((b % 16) * 16 + c / 4) :: ((c % 4) * 64 + d) ::
      b64Bytes rest
  | [a, b] => [a * 4 + b / 16]
  | [a, b, c] => [a * 4 + b / 16, (b % 16) * 16 + c / 4]
  | _ => []

/-- Forgiving-base64: when the length is a multiple of four, remove up to
two trailing `=` padding characters. -/
def stripPadding (cs : List Char) : List Char :=
  if cs.length % 4 == 0 then
    let cs1 := if cs.getLast? == some '=' then cs.dropLast else cs
    if cs1.getLast? == some '=' then cs1.dropLast else cs1
  else cs

/-- The `DOMException` thrown by `atob` on malformed base64. -/
def invalidCharacterError : JsError :=
  .domException "Invalid character" "InvalidCharacterError"

/-- Model of `atob`: forgiving-base64 decode, returning the code points of the
resulting binary string (each below 256). -/
def atob (s : String) : Except JsError (List Nat) :=
  let cs := s.toList.filter fun c => !(isAsciiWhitespace c)
  let cs := stripPadding cs
  if cs.length % 4 == 1 then .error invalidCharacterError
  else
    match cs.mapM b64Val with
    | none => .error invalidCharacterError
    | some vals => .ok (b64Bytes vals)

/-- The function `canvasEncode` (`index.ts` lines 41–80).  With a 2D context available,
either export via `toBlob` (which may produce `null`), or fall back to
`toDataURL`, parse it with `/data:([^;]+);base64,(.*)$/`, throw
`Error("Data URL reading failed")` when it does not match, decode the
base64 payload with `atob` and store its char codes into a `Uint8Array`
(hence the `% 256`), and wrap them in a blob whose type is the parsed
output type.  A `null` blob becomes `Error("Encoding failed")`. -/
def canvasEncode (env : CanvasEnv) (data : ImageData) (type : String)
    (quality : Quality) : Except JsError Blob :=
  if !env.contextAvailable then .error (.jsError "Canvas not initialized")
  else
    let blobStep : Except JsError (Option Blob) :=
      if env.hasToBlob then .ok (env.toBlob data type quality)
      else
        let dataUrl := env.toDataURL data type quality
        match execDataUrl dataUrl.toList with
        | none => .error (.jsError "Data URL reading failed")
        | some (outputType, b64) =>
          match atob (String.mk b64) with
          | .error e => .error e
          | .ok codes =>
            .ok (some ⟨codes.map fun v => v % 256, String.mk outputType⟩)
    match blobStep with
    | .error e => .error e
    | .ok none => .error (.jsError "Encoding failed")
    | .ok (some b) => .ok b

/-- Invariant tying the probe log to the cache: the log has no duplicate
labels, and a label is in the log exactly when it is cached. -/
def GoodProbeState (st : DecodeProbeState) : Prop :=
  st.probeLog.Nodup ∧
    ∀ t : String, (st.canDecodeCache.lookup t).isSome ↔ t ∈ st.probeLog

/-- Environment whose binary export ignores the requested type and produces
a PNG-typed blob, as Safari and Firefox do (see the comment in the source
function `canvasEncodeTest`, `index.ts` lines 444–447). -/
def pngFallbackEnv : CanvasEnv where
  contextAvailable := true
  hasToBlob := true
  toBlob := fun _ _ _ => some ⟨[0x89, 0x50], "image/png"⟩
  toDataURL := fun _ _ _ => ""

/-- Environment whose blob export produces no output (a null blob). -/
def nullBlobEnv : CanvasEnv where
  contextAvailable := true
  hasToBlob := true
  toBlob := fun _ _ _ => none
  toDataURL := fun _ _ _ => ""

/-- Environment without binary blob export, answering with a base64 data
URL carrying the bytes 0, 1, 2. -/
def dataUrlEnv : CanvasEnv where
  contextAvailable := true
  hasToBlob := false
  toBlob := fun _ _ _ => none
  toDataURL := fun _ _ _ => "data:image/png;base64,AAEC"

/-- Environment without binary blob export whose data URL is unparsable. -/
def badDataUrlEnv : CanvasEnv where
  contextAvailable := true
  hasToBlob := false
  toBlob := fun _ _ _ => none
  toDataURL := fun _ _ _ => "nonsense"

/-! ### Computation rules for `rxTest` -/

theorem rxTest_fail (l : List Nat) : rxTest .fail l = false := by
  induction l with
  | nil => rfl
  | cons c cs ih => simp [rxTest, Rx.deriv, Rx.nullable, ih]

theorem rxTest_eps (l : List Nat) : rxTest .eps l = true := by
  cases l <;> simp [rxTest, Rx.nullable]

theorem rxTest_alt (a b : Rx) (l : List Nat) :
    rxTest (.alt a b) l = (rxTest a l || rxTest b l) := by
  induction l generalizing a b with
  | nil => rfl
  | cons c cs ih =>
    simp [rxTest, Rx.nullable, Rx.deriv, ih, Bool.or_assoc, Bool.or_left_comm]

theorem rxTest_seq_fail (r : Rx) (l : List Nat) :
    rxTest (.seq .fail r) l = false := by
  induction l with
  | nil => rfl
  | cons c cs ih => simp [rxTest, Rx.nullable, Rx.deriv, ih]

theorem rxTest_seq_eps (r : Rx) (l : List Nat) :
    rxTest (.seq .eps r) l = rxTest r l := by
  cases l with
  | nil => simp [rxTest, Rx.nullable]
  | cons c cs =>
    simp [rxTest, Rx.nullable, Rx.deriv, rxTest_alt, rxTest_seq_fail]

theorem rxTest_cls (p : Nat → Bool) (l : List Nat) :
    rxTest (.cls p) l = (match l with | [] => false | c :: _ => p c) := by
  cases l with
  | nil => rfl
  | cons c cs =>
    cases hp : p c <;> simp [rxTest, Rx.nullable, Rx.deriv, hp, rxTest_eps, rxTest_fail]

theorem rxTest_seq_cls (p : Nat → Bool) (r : Rx) (l : List Nat) :
    rxTest (.seq (.cls p) r) l =
      (match l with | [] => false | c :: cs => p c && rxTest r cs) := by
  cases l with
  | nil => rfl
  | cons c cs =>
    cases hp : p c <;>
      simp [rxTest, Rx.nullable, Rx.deriv, hp, rxTest_seq_eps, rxTest_seq_fail]

theorem rxTest_star (r : Rx) (l : List Nat) : rxTest (.star r) l = true := by
  cases l <;> simp [rxTest, Rx.nullable]

theorem rxStr_cons (b : Nat) (bs : List Nat) :
    rxStr (b :: bs) = .seq (chr b) (rxStr bs) := rfl

theorem rxTest_rxStr (bs l : List Nat) : rxTest (rxStr bs) l = bs.isPrefixOf l := by
  induction bs generalizing l with
  | nil => simp [rxStr, rxCat, rxTest_eps, List.isPrefixOf]
  | cons b bs ih =>
    cases l with
    | nil => simp [rxStr_cons, chr, rxTest_seq_cls, List.isPrefixOf]
    | cons c cs =>
      simp [rxStr_cons, chr, rxTest_seq_cls, List.isPrefixOf, ih]

/-- The `II*` detector accepts exactly the strings whose first code point is
`I` (0x49): the `*` quantifier lets the second `I` match zero times. -/
theorem rxTest_reTIFF2 (l : List Nat) : rxTest reTIFF2 l = [0x49].isPrefixOf l := by
  cases l with
  | nil => rfl
  | cons c cs =>
    simp [reTIFF2, chr, rxTest_seq_cls, rxTest_star, List.isPrefixOf]

/-- The `MM\x00*` detector accepts exactly the strings starting with `MM`:
the `*` quantifier lets the NUL byte match zero times. -/
theorem rxTest_reTIFF3 (l : List Nat) :
    rxTest reTIFF3 l = [0x4D, 0x4D].isPrefixOf l := by
  cases l with
  | nil => rfl
  | cons c cs =>
    cases cs with
    | nil => simp [reTIFF3, chr, rxTest_seq_cls, List.isPrefixOf]
    | cons d ds =>
      simp [reTIFF3, chr, rxTest_seq_cls, rxTest_star, List.isPrefixOf]

/-! ### Structure of the table scan -/

/-- The table scan returns the MIME type of the entry at the least matching
index: if entry `i` matches and every entry before it fails, the scan
returns the type of entry `i`. -/
theorem findMimeType_first_match (entries : List (Rx × String)) (s : List Nat)
    (i : Nat) (hi : i < entries.length)
    (hmatch : rxTest (entries.get ⟨i, hi⟩).1 s = true)
    (hearlier : ∀ (j : Nat) (hj : j < entries.length), j < i →
      rxTest (entries.get ⟨j, hj⟩).1 s = false) :
    findMimeType entries s = (entries.get ⟨i, hi⟩).2 := by
  induction entries generalizing i with
  | nil => exact absurd hi (Nat.not_lt_zero i)
  | cons e es ih =>
    obtain ⟨d, m⟩ := e
    cases i with
    | zero =>
      simp only [List.get] at hmatch ⊢
      simp [findMimeType, hmatch]
    | succ i =>
      have h0 : rxTest d s = false := hearlier 0 (Nat.succ_pos _) (Nat.succ_pos _)
      simp only [List.get] at hmatch ⊢
      simp only [findMimeType, h0, Bool.false_eq_true, if_false]
      exact ih i (Nat.lt_of_succ_lt_succ hi) hmatch
        (fun j hj hji => hearlier (j + 1) (Nat.succ_lt_succ hj) (Nat.succ_lt_succ hji))

/-- When no table entry matches, the scan falls through and returns the
empty string. -/
theorem findMimeType_no_match (entries : List (Rx × String)) (s : List Nat)
    (h : ∀ (j : Nat) (hj : j < entries.length),
      rxTest (entries.get ⟨j, hj⟩).1 s = false) :
    findMimeType entries s = "" := by
  induction entries with
  | nil => rfl
  | cons e es ih =>
    obtain ⟨d, m⟩ := e
    have h0 : rxTest d s = false := h 0 (Nat.succ_pos _)
    simp only [findMimeType, h0, Bool.false_eq_true, if_false]
    exact ih (fun j hj => h (j + 1) (Nat.succ_lt_succ hj))

/-- The table scan yields the empty string or the MIME type of some table
entry. -/
theorem findMimeType_result (entries : List (Rx × String)) (s : List Nat) :
    findMimeType entries s = "" ∨
      ∃ e ∈ entries, findMimeType entries s = e.2 := by
  induction entries with
  | nil => exact Or.inl rfl
  | cons e es ih =>
    obtain ⟨d, m⟩ := e
    by_cases h : rxTest d s = true
    · exact Or.inr ⟨(d, m), List.mem_cons_self _ _, by simp [findMimeType, h]⟩
    · have hf : findMimeType ((d, m) :: es) s = findMimeType es s := by
        simp [findMimeType, h]
      rcases ih with h1 | ⟨e2, he2, h2⟩
      · exact Or.inl (hf.trans h1)
      · exact Or.inr ⟨e2, List.mem_cons_of_mem _ he2, hf.trans h2⟩

/-! ### Structure of the probe cache -/

/-- Association-list lookup distributes over append: the left list is
consulted first. -/
theorem lookup_append (k : String) (l1 l2 : List (String × Nat)) :
    List.lookup k (l1 ++ l2) =
      match List.lookup k l1 with
      | some v => some v
      | none => List.lookup k l2 := by
  induction l1 with
  | nil => rfl
  | cons a l1 ih =>
    obtain ⟨a1, a2⟩ := a
    cases h : (k == a1) <;> simp [List.lookup, h, ih]

/-- A call whose label is already cached returns the stored promise and
leaves the state (cache, counter and probe log) untouched. -/
theorem canDecode_cached (st : DecodeProbeState) (type : String) (id : Nat)
    (h : st.canDecodeCache.lookup type = some id) :
    canDecodeImageType st type = (id, st) := by
  simp [canDecodeImageType, h]

/-- After any call, the cache stores exactly the promise the call
returned. -/
theorem canDecode_lookup_after (st : DecodeProbeState) (type : String) :
    (canDecodeImageType st type).2.canDecodeCache.lookup type =
      some (canDecodeImageType st type).1 := by
  cases h : st.canDecodeCache.lookup type with
  | some id => simp [canDecodeImageType, h]
  | none => simp [canDecodeImageType, h, lookup_append, List.lookup]

/-- No call evicts or overwrites an existing cache entry. -/
theorem canDecode_preserves (st : DecodeProbeState) (type k : String) (v : Nat)
    (h : st.canDecodeCache.lookup k = some v) :
    (canDecodeImageType st type).2.canDecodeCache.lookup k = some v := by
  cases hc : st.canDecodeCache.lookup type with
  | some id => simp [canDecodeImageType, hc, h]
  | none => simp [canDecodeImageType, hc, lookup_append, h]

/-- The module-load state satisfies the probe invariant. -/
theorem goodProbeState_initial : GoodProbeState initialProbeState := by
  constructor
  · exact List.nodup_nil
  · intro t
    simp [initialProbeState, List.lookup]

/-- Each call preserves the probe invariant. -/
theorem goodProbeState_step (st : DecodeProbeState) (type : String)
    (h : GoodProbeState st) : GoodProbeState (canDecodeImageType st type).2 := by
  obtain ⟨hnodup, hmem⟩ := h
  cases hc : st.canDecodeCache.lookup type with
  | some id =>
    simp only [canDecodeImageType, hc, Option.isSome_some, if_true]
    exact ⟨hnodup, hmem⟩
  | none =>
    have htype : type ∉ st.probeLog := by
      intro hx
      have h2 := (hmem type).2 hx
      rw [hc] at h2
      simp at h2
    constructor
    · simp only [canDecodeImageType, hc, Option.isSome_none, Bool.false_eq_true,
        if_false, List.nodup_append, List.nodup_cons, List.nodup_nil]
      exact ⟨hnodup, ⟨by simp, by simp⟩, by simp [List.disjoint_singleton, htype]⟩
    · intro t
      cases hct : st.canDecodeCache.lookup t with
      | some v =>
        have ht : t ∈ st.probeLog := (hmem t).1 (by simp [hct])
        simp [canDecodeImageType, hc, lookup_append, hct, ht]
      | none =>
        have ht : t ∉ st.probeLog := by
          intro hx
          have h2 := (hmem t).2 hx
          rw [hct] at h2
          simp at h2
        cases hbt : (t == type) <;>
          simp [canDecodeImageType, hc, lookup_append, hct, ht, List.lookup, hbt]
        · intro hx
          exact absurd hx (by simpa using hbt)
        · simpa using hbt

/-- Any sequence of calls preserves the probe invariant. -/
theorem goodProbeState_run (st : DecodeProbeState) (ts : List String)
    (h : GoodProbeState st) : GoodProbeState (runCanDecode st ts) := by
  induction ts generalizing st with
  | nil => exact h
  | cons t ts ih => exact ih _ (goodProbeState_step st t h)

/-! ### The claims -/

/-- C1: for every (signature bytes, MIME type) pair in the magic-number
table, sniffing a blob whose bytes start with the signature returns that
type — one conjunct per table entry, with the wildcard positions of the
WEBP signature and the starred TIFF suffixes instantiated by representative
bytes, and arbitrary continuations after the signature; and every blob
none of whose table detectors match returns the empty string.  In
particular a blob beginning with bytes 89 50 4E 47 0D 0A 1A 0A returns
image/png and a blob beginning 00 00 00 00 returns the empty string. -/
theorem sniff_table_signatures :
    (∀ (rest : List Nat) (ty : String),
      sniffMimeType ⟨[0x25, 0x50, 0x44, 0x46, 0x2D] ++ rest, ty⟩ = "application/pdf") ∧
    (∀ (rest : List Nat) (ty : String),
      sniffMimeType ⟨[0x47, 0x49, 0x46, 0x38, 0x37, 0x61] ++ rest, ty⟩ = "image/gif") ∧
    (∀ (rest : List Nat) (ty : String),
      sniffMimeType ⟨[0x47, 0x49, 0x46, 0x38, 0x39, 0x61] ++ rest, ty⟩ = "image/gif") ∧
    (∀ (rest : List Nat) (ty : String),
      sniffMimeType ⟨[0x89, 0x50, 0x4E, 0x47, 0x0D, 0x0A, 0x1A, 0x0A] ++ rest, ty⟩ = "image/png") ∧
    (∀ (rest : List Nat) (ty : String),
      sniffMimeType ⟨[0xFF, 0xD8, 0xFF] ++ rest, ty⟩ = "image/jpeg") ∧
    (∀ (rest : List Nat) (ty : String),
      sniffMimeType ⟨[0x42, 0x4D] ++ rest, ty⟩ = "image/bmp") ∧
    (∀ (rest : List Nat) (ty : String),
      sniffMimeType ⟨[0x49, 0x20, 0x49] ++ rest, ty⟩ = "image/tiff") ∧
    (∀ (rest : List Nat) (ty : String),
      sniffMimeType ⟨[0x49, 0x49] ++ rest, ty⟩ = "image/tiff") ∧
    (∀ (rest : List Nat) (ty : String),
      sniffMimeType ⟨[0x4D, 0x4D, 0x00] ++ rest, ty⟩ = "image/tiff") ∧
    (∀ (rest : List Nat) (ty : String),
      sniffMimeType ⟨[0x52, 0x49, 0x46, 0x46, 0x00, 0x00, 0x00, 0x00,
                      0x57, 0x45, 0x42, 0x50, 0x56, 0x50, 0x38, 0x20] ++ rest, ty⟩ = "image/webp") ∧
    (∀ (rest : List Nat) (ty : String),
      sniffMimeType ⟨[0xF4, 0xFF, 0x6F] ++ rest, ty⟩ = "image/webp2") ∧
    (∀ (rest : List Nat) (ty : String),
      sniffMimeType ⟨[0x00, 0x00, 0x00, 0x20, 0x66, 0x74, 0x79, 0x70,
                      0x61, 0x76, 0x69, 0x66, 0x00, 0x00, 0x00, 0x00] ++ rest, ty⟩ = "image/avif") ∧
    (∀ (rest : List Nat) (ty : String),
      sniffMimeType ⟨[0xFF, 0x0A] ++ rest, ty⟩ = "image/jxl") ∧
    (∀ (rest : List Nat) (ty : String),
      sniffMimeType ⟨[0x00, 0x00, 0x00, 0x0C, 0x4A, 0x58, 0x4C, 0x20,
                      0x0D, 0x0A, 0x87, 0x0A] ++ rest, ty⟩ = "image/jxl") ∧
    (∀ blob : Blob,
      (∀ (j : Nat) (hj : j < magicNumberMapInput.length),
        rxTest (magicNumberMapInput.get ⟨j, hj⟩).1 (blob.bytes.take 16) = false) →
      sniffMimeType blob = "") ∧
    sniffMimeType ⟨[0x89, 0x50, 0x4E, 0x47, 0x0D, 0x0A, 0x1A, 0x0A], ""⟩ = "image/png" ∧
    sniffMimeType ⟨[0x00, 0x00, 0x00, 0x00], ""⟩ = "" := by
  have hnone : ∀ blob : Blob,
      (∀ (j : Nat) (hj : j < magicNumberMapInput.length),
        rxTest (magicNumberMapInput.get ⟨j, hj⟩).1 (blob.bytes.take 16) = false) →
      sniffMimeType blob = "" := by
    intro blob h
    exact findMimeType_no_match magicNumberMapInput (blob.bytes.take 16) h
  refine ⟨?_, ?_, ?_, ?_, ?_, ?_, ?_, ?_, ?_, ?_, ?_, ?_, ?_, ?_, hnone,
      by decide, by decide⟩ <;>
    (intro rest ty
     simp [sniffMimeType, findMimeType, magicNumberMapInput,
           List.take_append_eq_append_take, rePDF, reGIF87, reGIF89, rePNG,
           reJPEG, reBMP, reTIFF1, reWEBP, reWEBP2, reAVIF, reJXL1, reJXL2,
           rxTest_rxStr, rxTest_reTIFF2, rxTest_reTIFF3, List.isPrefixOf,
           List.take, rxCat, chr, anyChar, oneOf, rxTest_seq_cls, rxTest_cls,
           rxTest_eps])

/-- Witness for C1: the no-recognised-prefix clause applied at the concrete
blob 01 02 03 04, discharging the no-detector-matches hypothesis entry by
entry. -/
theorem sniff_table_signatures_witness :
    sniffMimeType ⟨[0x01, 0x02, 0x03, 0x04], ""⟩ = "" := by
  refine sniff_table_signatures.2.2.2.2.2.2.2.2.2.2.2.2.2.2.1
    ⟨[0x01, 0x02, 0x03, 0x04], ""⟩ ?_
  intro j hj
  have hj14 : j < 14 := by simpa [magicNumberMapInput] using hj
  interval_cases j <;> exact of_decide_eq_true rfl

/-- C2: a signal already in the aborted state makes `abortable` reject
immediately (at instant 0) with the cancellation error, and the result does
not depend on the wrapped promise at all — no race is started. -/
theorem abortable_already_aborted (α : Type) (signal : AbortSignal)
    (promise : JsPromise α) (h : signal.aborted = true) :
    abortable signal promise =
      ⟨some (0, .rejected (.domException "AbortError" "AbortError"))⟩ ∧
    (∀ promise2 : JsPromise α, abortable signal promise = abortable signal promise2) := by
  constructor
  · simp [abortable, assertSignal, h]
  · intro p2
    simp [abortable, assertSignal, h]

/-- Witness for C2 at a concrete aborted signal and pending promise. -/
theorem abortable_already_aborted_witness :
    abortable ⟨true, none⟩ (⟨some (5, .resolved 7)⟩ : JsPromise Nat) =
      ⟨some (0, .rejected (.domException "AbortError" "AbortError"))⟩ ∧
    (∀ promise2 : JsPromise Nat,
      abortable ⟨true, none⟩ (⟨some (5, .resolved 7)⟩ : JsPromise Nat) =
        abortable ⟨true, none⟩ promise2) :=
  abortable_already_aborted Nat ⟨true, none⟩ ⟨some (5, .resolved 7)⟩ rfl

/-- C3: the capability probe is memoised — a cached label is answered from
the cache with no state change; an immediate second call with the same
label returns the same stored promise; entries are never evicted or
overwritten; and over any call sequence from the module-load state each
label is probed at most once. -/
theorem canDecodeImageType_memoised :
    (∀ (st : DecodeProbeState) (type : String) (id : Nat),
      st.canDecodeCache.lookup type = some id →
      canDecodeImageType st type = (id, st)) ∧
    (∀ (st : DecodeProbeState) (type : String),
      canDecodeImageType (canDecodeImageType st type).2 type =
        ((canDecodeImageType st type).1, (canDecodeImageType st type).2)) ∧
    (∀ (st : DecodeProbeState) (type k : String) (v : Nat),
      st.canDecodeCache.lookup k = some v →
      (canDecodeImageType st type).2.canDecodeCache.lookup k = some v) ∧
    (∀ (ts : List String) (t : String),
      (runCanDecode initialProbeState ts).probeLog.count t ≤ 1) := by
  refine ⟨canDecode_cached, ?_, canDecode_preserves, ?_⟩
  · intro st type
    exact canDecode_cached _ _ _ (canDecode_lookup_after st type)
  · intro ts t
    have h := goodProbeState_run initialProbeState ts goodProbeState_initial
    exact List.nodup_iff_count_le_one.1 h.1 t

/-- Witness for C3: a cached label is answered from the cache unchanged,
and a call with a fresh label preserves the existing entry. -/
theorem canDecodeImageType_memoised_witness :
    canDecodeImageType ⟨[("image/avif", 0)], 1, ["image/avif"]⟩ "image/avif" =
      (0, ⟨[("image/avif", 0)], 1, ["image/avif"]⟩) ∧
    (canDecodeImageType ⟨[("image/avif", 0)], 1, ["image/avif"]⟩
        "image/webp").2.canDecodeCache.lookup "image/avif" = some 0 :=
  ⟨canDecodeImageType_memoised.1 _ "image/avif" 0 rfl,
   canDecodeImageType_memoised.2.2.1 _ "image/webp" "image/avif" 0 rfl⟩

/-- C4: the sniffer examines at most the first 16 bytes — two blobs that
agree on their first 16 bytes sniff identically, whatever follows. -/
theorem sniff_first16 (b1 b2 : Blob)
    (h : b1.bytes.take 16 = b2.bytes.take 16) :
    sniffMimeType b1 = sniffMimeType b2 := by
  simp only [sniffMimeType, h]

/-- Witness for C4 at two 17-byte blobs differing only at byte 16. -/
theorem sniff_first16_witness :
    ([0x42, 0x4D, 0, 0, 0, 0, 0, 0, 0, 0, 0, 0, 0, 0, 0, 0, 1] : List Nat).take 16 =
      ([0x42, 0x4D, 0, 0, 0, 0, 0, 0, 0, 0, 0, 0, 0, 0, 0, 0, 2] : List Nat).take 16 ∧
    sniffMimeType ⟨[0x42, 0x4D, 0, 0, 0, 0, 0, 0, 0, 0, 0, 0, 0, 0, 0, 0, 1], "a"⟩ =
      sniffMimeType ⟨[0x42, 0x4D, 0, 0, 0, 0, 0, 0, 0, 0, 0, 0, 0, 0, 0, 0, 2], "b"⟩ :=
  ⟨by decide, sniff_first16 _ _ (by decide)⟩

/-- C5: the earliest matching table entry wins — when entry `i` matches the
first 16 bytes and every entry before `i` fails, the sniffer answers entry
`i`, whatever later entries would match; and the TIFF entries are ordered
generic-after-specific: the generic `II*` detector subsumes the specific
`I I` detector and sits after it in the table (both map to image/tiff). -/
theorem sniff_first_match_wins :
    (∀ (blob : Blob) (i : Nat) (hi : i < magicNumberMapInput.length),
      rxTest (magicNumberMapInput.get ⟨i, hi⟩).1 (blob.bytes.take 16) = true →
      (∀ (j : Nat) (hj : j < magicNumberMapInput.length), j < i →
        rxTest (magicNumberMapInput.get ⟨j, hj⟩).1 (blob.bytes.take 16) = false) →
      sniffMimeType blob = (magicNumberMapInput.get ⟨i, hi⟩).2) ∧
    (∀ l : List Nat, rxTest reTIFF1 l = true → rxTest reTIFF2 l = true) ∧
    magicNumberMapInput[6]? = some (reTIFF1, "image/tiff") ∧
    magicNumberMapInput[7]? = some (reTIFF2, "image/tiff") := by
  refine ⟨?_, ?_, rfl, rfl⟩
  · intro blob i hi hmatch hearlier
    exact findMimeType_first_match magicNumberMapInput (blob.bytes.take 16) i hi
      hmatch hearlier
  · intro l h
    rw [reTIFF1, rxTest_rxStr] at h
    rw [rxTest_reTIFF2]
    cases l with
    | nil => simp [List.isPrefixOf] at h
    | cons c cs =>
      simp [List.isPrefixOf] at h ⊢
      exact h.1

/-- Witness for C5: the GIF89a entry (index 2) matches while entries 0 and
1 fail, so the sniffer answers image/gif. -/
theorem sniff_first_match_wins_witness :
    sniffMimeType ⟨[0x47, 0x49, 0x46, 0x38, 0x39, 0x61], ""⟩ = "image/gif" := by
  refine sniff_first_match_wins.1 ⟨[0x47, 0x49, 0x46, 0x38, 0x39, 0x61], ""⟩ 2
    (by decide) (by decide) ?_
  intro j hj hj2
  interval_cases j
  · exact of_decide_eq_true rfl
  · exact of_decide_eq_true rfl

/-- C6: with a signal that is not aborted and never fires, `abortable` is
observationally equivalent to the wrapped promise: same settlement instant,
same resolution value or rejection error, or never settling at all. -/
theorem abortable_never_fires (α : Type) (signal : AbortSignal)
    (promise : JsPromise α) (h1 : signal.aborted = false)
    (h2 : signal.firesAt = none) :
    abortable signal promise = promise := by
  obtain ⟨s⟩ := promise
  cases s <;> simp [abortable, assertSignal, h1, abortRejecter, h2, race]

/-- Witness for C6 at a rejecting and at a resolving wrapped promise. -/
theorem abortable_never_fires_witness :
    abortable ⟨false, none⟩
        (⟨some (3, .rejected (.jsError "Image loading error"))⟩ : JsPromise Nat) =
      ⟨some (3, .rejected (.jsError "Image loading error"))⟩ ∧
    abortable ⟨false, none⟩ (⟨some (4, .resolved 9)⟩ : JsPromise Nat) =
      ⟨some (4, .resolved 9)⟩ :=
  ⟨abortable_never_fires Nat ⟨false, none⟩ _ rfl rfl,
   abortable_never_fires Nat ⟨false, none⟩ _ rfl rfl⟩

/-- C7: cancellation failures are the distinguished AbortError — an aborted
signal makes `assertSignal` throw the AbortError-named DOMException; every
rejection of `abortable` is either the wrapped promise rejecting with its
own error or the distinguished AbortError; and no plain Error (the form of
all decode/encode failures in the module) is an AbortError. -/
theorem cancellation_error_distinguished :
    (∀ signal : AbortSignal, signal.aborted = true →
      assertSignal signal = .error abortError ∧ abortError.isAbortError = true) ∧
    (∀ (α : Type) (signal : AbortSignal) (promise : JsPromise α) (t : Nat) (e : JsError),
      (abortable signal promise).settle = some (t, .rejected e) →
      e.isAbortError = true ∨ ∃ t2 : Nat, promise.settle = some (t2, .rejected e)) ∧
    (∀ msg : String, (JsError.jsError msg).isAbortError = false ∧
      abortError ≠ .jsError msg) := by
  refine ⟨?_, ?_, ?_⟩
  · intro signal h
    exact ⟨by simp [assertSignal, h, abortError], rfl⟩
  · intro α signal promise t e h
    cases hs : signal.aborted with
    | true =>
      simp [abortable, assertSignal, hs] at h
      left
      rw [← h.2]
      rfl
    | false =>
      simp only [abortable, assertSignal, hs, Bool.false_eq_true, if_false] at h
      obtain ⟨ps⟩ := promise
      cases ps with
      | none =>
        cases hf : signal.firesAt with
        | none => simp [race, abortRejecter, hf] at h
        | some tq =>
          simp [race, abortRejecter, hf] at h
          left
          rw [← h.2]
          rfl
      | some v =>
        obtain ⟨tp, op⟩ := v
        cases hf : signal.firesAt with
        | none =>
          simp [race, abortRejecter, hf] at h
          exact Or.inr ⟨t, by simp [h.1, h.2]⟩
        | some tq =>
          simp only [race, abortRejecter, hf, Option.map_some] at h
          by_cases hlt : tq < tp
          · simp [hlt] at h
            left
            rw [← h.2]
            rfl
          · simp [hlt] at h
            exact Or.inr ⟨t, by simp [h.1, h.2]⟩
  · intro msg
    exact ⟨rfl, by simp [abortError]⟩

/-- Witness for C7 at an aborted signal, a cancellation-rejected wrapper
over a never-settling promise, and the encode failure message. -/
theorem cancellation_error_distinguished_witness :
    (assertSignal ⟨true, none⟩ = .error abortError ∧ abortError.isAbortError = true) ∧
    ((JsError.domException "AbortError" "AbortError").isAbortError = true ∨
      ∃ t2 : Nat, (⟨none⟩ : JsPromise Nat).settle =
        some (t2, .rejected (.domException "AbortError" "AbortError"))) ∧
    ((JsError.jsError "Encoding failed").isAbortError = false ∧
      abortError ≠ .jsError "Encoding failed") :=
  ⟨cancellation_error_distinguished.1 ⟨true, none⟩ rfl,
   cancellation_error_distinguished.2.1 Nat ⟨false, some 2⟩ ⟨none⟩ 2
     (.domException "AbortError" "AbortError") rfl,
   cancellation_error_distinguished.2.2 "Encoding failed"⟩

/-- C8 counterexample: the claim says the returned blob is of the requested
type, but with a binary export that falls back to PNG (as Safari and
Firefox do, per the comment in the source function `canvasEncodeTest`) a
request for image/webp returns a PNG-typed blob without throwing. -/
theorem canvasEncode_requested_type_counterexample :
    canvasEncode pngFallbackEnv ⟨1, 1, [0, 0, 0, 0]⟩ "image/webp" none =
      .ok ⟨[0x89, 0x50], "image/png"⟩ ∧
    ("image/png" : String) ≠ "image/webp" :=
  ⟨rfl, by decide⟩

/-- C8 (amended): `canvasEncode` either returns a non-null blob — of
whatever type the environment produced, not necessarily the requested one —
or throws; a null blob export throws the distinct Encoding failed error;
without binary export it falls back to the base64 data-URL path and decodes
the payload back to raw bytes; an unparsable data URL throws the distinct
Data URL reading failed error. -/
theorem canvasEncode_blob_or_throw :
    (∀ (env : CanvasEnv) (data : ImageData) (type : String) (q : Quality),
      (∃ b : Blob, canvasEncode env data type q = .ok b) ∨
      (∃ e : JsError, canvasEncode env data type q = .error e)) ∧
    (∀ (env : CanvasEnv) (data : ImageData) (type : String) (q : Quality),
      env.contextAvailable = true → env.hasToBlob = true →
      env.toBlob data type q = none →
      canvasEncode env data type q = .error (.jsError "Encoding failed")) ∧
    (∀ (env : CanvasEnv) (data : ImageData) (type : String) (q : Quality)
        (t64 b64 : List Char) (codes : List Nat),
      env.contextAvailable = true → env.hasToBlob = false →
      execDataUrl (env.toDataURL data type q).toList = some (t64, b64) →
      atob (String.mk b64) = .ok codes →
      canvasEncode env data type q =
        .ok ⟨codes.map (fun v => v % 256), String.mk t64⟩) ∧
    (∀ (env : CanvasEnv) (data : ImageData) (type : String) (q : Quality),
      env.contextAvailable = true → env.hasToBlob = false →
      execDataUrl (env.toDataURL data type q).toList = none →
      canvasEncode env data type q = .error (.jsError "Data URL reading failed")) := by
  refine ⟨?_, ?_, ?_, ?_⟩
  · intro env data type q
    cases h : canvasEncode env data type q with
    | ok b => exact Or.inl ⟨b, rfl⟩
    | error e => exact Or.inr ⟨e, rfl⟩
  · intro env data type q hctx htb hnone
    simp [canvasEncode, hctx, htb, hnone]
  · intro env data type q t64 b64 codes hctx htb hexec hatob
    simp only [String.toList] at hexec
    simp [canvasEncode, hctx, htb, hexec, hatob]
  · intro env data type q hctx htb hexec
    simp only [String.toList] at hexec
    simp [canvasEncode, hctx, htb, hexec]

/-- Witness for C8 at the three concrete environments: a null blob export,
a well-formed data URL carrying bytes 0 1 2, and an unparsable data URL. -/
theorem canvasEncode_blob_or_throw_witness :
    canvasEncode nullBlobEnv ⟨1, 1, [0, 0, 0, 0]⟩ "image/jpeg" none =
      .error (.jsError "Encoding failed") ∧
    canvasEncode dataUrlEnv ⟨1, 1, [0, 0, 0, 0]⟩ "image/png" none =
      .ok ⟨[0, 1, 2], "image/png"⟩ ∧
    canvasEncode badDataUrlEnv ⟨1, 1, [0, 0, 0, 0]⟩ "image/png" none =
      .error (.jsError "Data URL reading failed") := by
  refine ⟨canvasEncode_blob_or_throw.2.1 nullBlobEnv ⟨1, 1, [0, 0, 0, 0]⟩
      "image/jpeg" none rfl rfl rfl, ?_, ?_⟩
  · have h := canvasEncode_blob_or_throw.2.2.1 dataUrlEnv ⟨1, 1, [0, 0, 0, 0]⟩
      "image/png" none "image/png".toList "AAEC".toList [0, 1, 2] rfl rfl
      (by decide) rfl
    simpa using h
  · exact canvasEncode_blob_or_throw.2.2.2 badDataUrlEnv ⟨1, 1, [0, 0, 0, 0]⟩
      "image/png" none rfl rfl (by decide)

/-- C9: a blob shorter than 16 bytes sniffs without error — the scan simply
tests the available bytes against the whole table and returns either a
table MIME type or the empty string. -/
theorem sniff_short_blob (blob : Blob) (h : blob.bytes.length < 16) :
    sniffMimeType blob = findMimeType magicNumberMapInput blob.bytes ∧
    (sniffMimeType blob = "" ∨
      ∃ e ∈ magicNumberMapInput, sniffMimeType blob = e.2) := by
  have ht : blob.bytes.take 16 = blob.bytes :=
    List.take_of_length_le (Nat.le_of_lt h)
  constructor
  · simp only [sniffMimeType, ht]
  · simpa only [sniffMimeType] using
      findMimeType_result magicNumberMapInput (blob.bytes.take 16)

/-- Witness for C9 at a two-byte BMP-signature blob. -/
theorem sniff_short_blob_witness :
    sniffMimeType ⟨[0x42, 0x4D], "x"⟩ =
      findMimeType magicNumberMapInput ([0x42, 0x4D] : List Nat) ∧
    (sniffMimeType ⟨[0x42, 0x4D], "x"⟩ = "" ∨
      ∃ e ∈ magicNumberMapInput, sniffMimeType ⟨[0x42, 0x4D], "x"⟩ = e.2) :=
  sniff_short_blob ⟨[0x42, 0x4D], "x"⟩ (by decide)

/-- C10: because the TIFF entries use `*` as a regex quantifier rather than
a literal byte, every blob whose first byte is 0x49 sniffs as image/tiff,
and every blob whose first two bytes are 0x4D 0x4D sniffs as image/tiff,
even without the remaining TIFF magic bytes such as 0x2A. -/
theorem sniff_tiff_wildcard :
    (∀ (t : List Nat) (ty : String),
      sniffMimeType ⟨0x49 :: t, ty⟩ = "image/tiff") ∧
    (∀ (t : List Nat) (ty : String),
      sniffMimeType ⟨0x4D :: 0x4D :: t, ty⟩ = "image/tiff") := by
  constructor
  · intro t ty
    have h16 : List.take 16 (0x49 :: t) = 0x49 :: List.take 15 t := rfl
    simp [sniffMimeType, findMimeType, magicNumberMapInput, h16, rePDF,
          reGIF87, reGIF89, rePNG, reJPEG, reBMP, reTIFF1, rxTest_rxStr,
          rxTest_reTIFF2, List.isPrefixOf]
  · intro t ty
    have h16 : List.take 16 (0x4D :: 0x4D :: t) = 0x4D :: 0x4D :: List.take 14 t := rfl
    simp [sniffMimeType, findMimeType, magicNumberMapInput, h16, rePDF,
          reGIF87, reGIF89, rePNG, reJPEG, reBMP, reTIFF1, rxTest_rxStr,
          rxTest_reTIFF2, rxTest_reTIFF3, List.isPrefixOf]

end Squoosh
